import Mathlib

/-!
Shallow embedding of the conversation session and request-composition engine of
`src/web/services/chat.service.js` together with the configuration it consumes
(`src/web/config/chat.config.js`, present in two revisions in the repository).

Modelling conventions:
* JavaScript strings are `String`; `Map` session storage is a total function
  from session id to message list (an absent key reads as the empty list, which
  is observationally what `getConversationHistory`'s get-or-create does).
* JavaScript numbers that only ever hold the literals 0.7 / 0.6 / 0.5 are
  represented in tenths as naturals (temperature 7 means 0.7); no arithmetic is
  performed on them, only construction and comparison, so the scaling is exact.
* The nondeterministic outcome of the single `axios.post` attempt is an
  explicit input (`AxiosOutcome`), with one constructor per branch of the
  `catch` in `sendChatRequest` plus the resolved-success case.
* Fields that the service reads through optional chaining or destructuring
  defaults are `Option`s.
-/

/-- A chat message `{ role, content }` as used throughout `chat.service.js`. -/
structure Message where
  role : String
  content : String
deriving DecidableEq, Repr

/-- Ordered per-session message history. -/
abbrev History := List Message

/-- The `conversations` map of `ChatService`, read through
`getConversationHistory` which creates an empty entry on miss; an absent key is
therefore observationally the empty list. -/
abbrev Store := String → History

/-- JavaScript whitespace as relevant to `String.prototype.trim` (ASCII part;
the inputs in this development contain no exotic Unicode spaces). -/
def isJsSpace (c : Char) : Bool :=
  c == ' ' || c == '\t' || c == '\n' || c == '\r' || c == '\x0b' || c == '\x0c'

/-- Model of JavaScript `String.prototype.trim`: strip leading and trailing
whitespace. -/
def jsTrim (s : String) : String :=
  String.mk (((s.data.dropWhile isJsSpace).reverse.dropWhile isJsSpace).reverse)

/-- The `api` section of `chat.config.js`: endpoint, key, model and the
request-timeout entry (`api.timeout`, overridable via `CHAT_API_TIMEOUT`). -/
structure ApiConfig where
  endpoint : String
  apiKey : String
  model : String
  timeout : Nat
deriving DecidableEq, Repr

/-- Default `api` section of the `chat.config.js` revision that targets the
RAG endpoint: model `deepseek-r1`, timeout default 120000 ms. -/
def ragApiConfig : ApiConfig :=
  ApiConfig.mk "http://<YOUR_RAG_URL>/v1/chat/completions" "placeholder-api-key"
    "deepseek-r1" 120000

/-- Default `api` section of the `chat.config.js` revision that targets the
placeholder endpoint: model `gpt-3.5-turbo`, timeout default 30000 ms. -/
def placeholderApiConfig : ApiConfig :=
  ApiConfig.mk "https://api.placeholder-chat-service.com/v1/chat/completions"
    "placeholder-api-key" "gpt-3.5-turbo" 30000

/-- Default `chat.maxHistoryMessages` (`CHAT_MAX_HISTORY` unset): 20. -/
def defaultMaxHistoryMessages : Nat := 20

/-- A named system-prompt template from `chat.config.js`:
`{ content, temperature, maxTokens }`.  Temperature is in tenths. -/
structure PromptTemplate where
  content : String
  temperature : Nat
  maxTokens : Nat
deriving DecidableEq, Repr

/-- The `systemPrompts.travel` template (temperature 0.7, maxTokens 500). -/
def travelTemplate : PromptTemplate :=
  PromptTemplate.mk
    "You are a helpful AI travel assistant for Contoso Air, a premium airline company. \nYou specialize in helping customers with:\n- Flight bookings and reservations\n- Travel planning and destination recommendations  \n- Airport information and travel tips\n- Flight status and schedule information\n- Travel policies and procedures\n- Customer service inquiries\n\nAlways be friendly, professional, and focused on providing excellent customer service. \nWhen discussing flights or travel, prioritize Contoso Air\x27s services and highlight our premium features.\nKeep responses concise but informative. If you don\x27t have specific flight information, guide users to appropriate booking channels."
    7 500

/-- The `systemPrompts.booking` template (temperature 0.6, maxTokens 400). -/
def bookingTemplate : PromptTemplate :=
  PromptTemplate.mk
    "You are a flight booking specialist for Contoso Air. \nHelp users find and book the perfect flights for their travel needs.\nAsk relevant questions about departure/arrival cities, dates, preferences, and passenger details.\nProvide clear information about pricing, schedules, and booking procedures.\nAlways be helpful and guide users through the booking process step by step."
    6 400

/-- The `systemPrompts.support` template (temperature 0.5, maxTokens 450). -/
def supportTemplate : PromptTemplate :=
  PromptTemplate.mk
    "You are a customer support representative for Contoso Air.\nHelp customers with their inquiries about existing bookings, flight changes, cancellations, baggage, and general travel policies.\nBe empathetic, professional, and solution-oriented.\nIf you cannot resolve an issue directly, guide customers to the appropriate support channels."
    5 450

/-- The `systemPrompts.general` template (temperature 0.7, maxTokens 400). -/
def generalTemplate : PromptTemplate :=
  PromptTemplate.mk
    "You are a helpful AI assistant for Contoso Air\x27s website. \nProvide helpful, accurate, and friendly responses to user queries. \nFocus on travel-related topics when possible, and always maintain a professional tone."
    7 400

/-- Result of the property lookup `this.config.systemPrompts[context]` on the
plain object literal `systemPrompts`: one of the four own template properties,
a truthy non-template value inherited from `Object.prototype` through the
prototype chain (a function, or the `__proto__` accessor's object), or
`undefined`, the only falsy case. -/
inductive PromptLookup where
  | template (t : PromptTemplate)
  | inherited
  | undef
deriving DecidableEq, Repr

/-- Property names every plain object literal inherits from
`Object.prototype`; each of their values is truthy. -/
def objectPrototypeKeys : List String :=
  ["constructor", "hasOwnProperty", "isPrototypeOf", "propertyIsEnumerable",
    "toLocaleString", "toString", "valueOf", "__proto__",
    "__defineGetter__", "__defineSetter__", "__lookupGetter__", "__lookupSetter__"]

/-- Property lookup `this.config.systemPrompts[context]`: the object literal
owns exactly the keys `travel`, `booking`, `support`, `general`, and
otherwise the lookup walks the prototype chain, finding the inherited
`Object.prototype` properties before yielding `undefined`. -/
def systemPromptFor (context : String) : PromptLookup :=
  if context = "travel" then PromptLookup.template travelTemplate
  else if context = "booking" then PromptLookup.template bookingTemplate
  else if context = "support" then PromptLookup.template supportTemplate
  else if context = "general" then PromptLookup.template generalTemplate
  else if objectPrototypeKeys.contains context then PromptLookup.inherited
  else PromptLookup.undef

/-- A context tag that names one of the four defined templates. -/
def isDefinedTemplateTag (context : String) : Bool :=
  match systemPromptFor context with
  | PromptLookup.template _ => true
  | _ => false

/-- A JavaScript string-or-undefined value, as held by the `systemContent`
variable of `buildSystemPrompt`: reading `.content` off an inherited
non-template value yields `undefined`. -/
inductive JsValue where
  | undef
  | str (s : String)
deriving DecidableEq, Repr

/-- JavaScript `x += t` for a string `t`: concatenation coerces an
`undefined` left operand to the string "undefined". -/
def jsAppend (v : JsValue) (t : String) : JsValue :=
  match v with
  | JsValue.str s => JsValue.str (s ++ t)
  | JsValue.undef => JsValue.str ("undefined" ++ t)

/-- The `userInfo` options object: each property may be absent. -/
structure UserInfo where
  name : Option String
  location : Option String
  preferredLanguage : Option String
deriving DecidableEq, Repr

/-- A `userInfo` with no properties set. -/
def emptyUserInfo : UserInfo := UserInfo.mk none none none

/-- Truthiness of an optional JavaScript string property: present and not the
empty string. -/
def strTruthy (s : Option String) : Bool :=
  match s with
  | some v => !(v == "")
  | none => false

/-- The `systemContent` value built by `buildSystemPrompt` (lines 55-76):
start from `(systemPrompts[context] || systemPrompts.general).content` — the
`||` fallback fires only for the falsy `undefined`, so an inherited
`Object.prototype` property is kept and its `.content` is `undefined` — then
conditionally append the name, location and language clauses in that fixed
order. -/
def buildSystemPromptValue (context : String) (userInfo : UserInfo) : JsValue :=
  let c0 : JsValue :=
    match systemPromptFor context with
    | PromptLookup.template t => JsValue.str t.content
    | PromptLookup.inherited => JsValue.undef
    | PromptLookup.undef => JsValue.str generalTemplate.content
  let c1 :=
    match userInfo.name with
    | some n =>
        if !(n == "") then jsAppend c0 ("\n\nThe customer\x27s name is " ++ n ++ ".") else c0
    | none => c0
  let c2 :=
    match userInfo.location with
    | some l =>
        if !(l == "") then jsAppend c1 ("\nThe customer is located in " ++ l ++ ".") else c1
    | none => c1
  match userInfo.preferredLanguage with
  | some p =>
      if !(p == "") && !(p == "en") then
        jsAppend c2 ("\nPlease respond in " ++ p ++ " if the customer writes in that language.")
      else c2
  | none => c2

/-- `buildSystemPrompt(context, userInfo)` of `chat.service.js` lines 55-76:
the returned `{role: system, content: systemContent}` object.  A content that
remains `undefined` (an inherited tag with no personalization clause fired)
is represented by the string "undefined", the value JavaScript's string
coercion gives it; no theorem below depends on that representation. -/
def buildSystemPrompt (context : String) (userInfo : UserInfo) : Message :=
  Message.mk "system"
    (match buildSystemPromptValue context userInfo with
     | JsValue.str s => s
     | JsValue.undef => "undefined")

/-- `getConversationHistory(sessionId)` (lines 26-31): read the session's
history, an absent session reading as empty. -/
def getConversationHistory (store : Store) (sessionId : String) : History :=
  store sessionId

/-- The per-session body of `addToConversation` (lines 38-47): push the
message, then if the length exceeds `maxHistoryMessages` splice off the oldest
messages down to exactly that bound. -/
def addMessageToHistory (maxMessages : Nat) (history : History) (message : Message) : History :=
  let h := history ++ [message]
  if h.length > maxMessages then h.drop (h.length - maxMessages) else h

/-- `addToConversation(sessionId, message)` at store level. -/
def addToConversation (maxMessages : Nat) (store : Store) (sessionId : String)
    (message : Message) : Store :=
  fun sid =>
    if sid = sessionId then addMessageToHistory maxMessages (store sessionId) message
    else store sid

/-- `clearConversation(sessionId)` (lines 237-239): delete the entry; a later
read recreates it empty, so at store level the session maps to `[]`. -/
def clearConversation (store : Store) (sessionId : String) : Store :=
  fun sid => if sid = sessionId then [] else store sid

/-- The store with no sessions. -/
def emptyStore : Store := fun _ => []

/-- The `options` bag of `createChatRequest` / `processMessage`; every field
may be absent and is then filled by the destructuring defaults of
`chat.service.js` lines 86-92 (`context = 'travel'`, `userInfo = {}`,
`temperature = 0.7`, `maxTokens = 500`, `includeHistory = true`).
Temperature is in tenths. -/
structure Options where
  context : Option String
  userInfo : Option UserInfo
  temperature : Option Nat
  maxTokens : Option Nat
  includeHistory : Option Bool
deriving DecidableEq, Repr

/-- An options bag with every field absent (a plain `{}`). -/
def defaultOptions : Options := Options.mk none none none none none

/-- The completion request payload returned by `createChatRequest`
(lines 117-125).  Temperature is in tenths. -/
structure ChatPayload where
  model : String
  messages : List Message
  temperature : Nat
  max_tokens : Nat
  top_p : Nat
  frequency_penalty : Nat
  presence_penalty : Nat
deriving DecidableEq, Repr

/-- `createChatRequest(userMessage, sessionId, options)` (lines 85-126):
build `[system, ...history?, newUser]`, append the trimmed user message to the
session store, and return the payload together with the updated store. -/
def createChatRequest (cfg : ApiConfig) (maxMessages : Nat) (store : Store)
    (userMessage sessionId : String) (options : Options) : ChatPayload × Store :=
  let context := options.context.getD "travel"
  let userInfo := options.userInfo.getD emptyUserInfo
  let temperature := options.temperature.getD 7
  let maxTokens := options.maxTokens.getD 500
  let includeHistory := options.includeHistory.getD true
  let userMsg := Message.mk "user" (jsTrim userMessage)
  let messages :=
    [buildSystemPrompt context userInfo]
      ++ (if includeHistory then getConversationHistory store sessionId else [])
      ++ [userMsg]
  let store1 := addToConversation maxMessages store sessionId userMsg
  (ChatPayload.mk cfg.model messages temperature maxTokens 1 0 0, store1)

/-- One `choices[i]` entry of the upstream response body; the `message` field
may be absent (read through `?.message`). -/
structure Choice where
  message : Option Message
deriving DecidableEq, Repr

/-- The JSON body of a resolved (success-status) upstream response:
`choices`, `usage`, `model`.  An absent or non-array `choices` reads as the
empty list under the optional chaining `choices?.[0]?.message`. -/
structure ResponseData where
  choices : List Choice
  usage : String
  model : String
deriving DecidableEq, Repr

/-- The outcome of the single `axios.post` attempt in `sendChatRequest`, one
constructor per case the code distinguishes:
* `success` — the promise resolved (a response with success status);
* `errorResponse` — it rejected with `error.response` set (a response was
  received whose status indicates failure);
* `errorRequest` — it rejected with `error.request` set but no response (the
  request was dispatched, no response came back: DNS/connection/timeout);
* `errorSetup` — it rejected with neither set (the request could not even be
  constructed or dispatched; no response was received either). -/
inductive AxiosOutcome where
  | success (data : ResponseData)
  | errorResponse (status : Nat) (statusText : String) (data : String)
  | errorRequest (message : String)
  | errorSetup (message : String)
deriving DecidableEq, Repr

/-- The result object of `sendChatRequest`: `{success: true, data}` or
`{success: false, error, details?}`. -/
inductive SendResult where
  | ok (data : ResponseData)
  | fail (error : String) (details : Option String)
deriving DecidableEq, Repr

/-- The headers-and-timeout options object passed to `axios.post` in
`sendChatRequest` (lines 135-141). -/
structure AxiosRequestOptions where
  contentType : String
  authorization : String
  timeout : Nat
deriving DecidableEq, Repr

/-- The third argument `sendChatRequest` hands to `axios.post`: JSON content
type, bearer authorization from the configured key, and the literal
`timeout: 30000` of line 140. -/
def sendChatRequestAxiosOptions (cfg : ApiConfig) : AxiosRequestOptions :=
  AxiosRequestOptions.mk "application/json" ("Bearer " ++ cfg.apiKey) 30000

/-- `sendChatRequest(requestPayload)` (lines 133-168) as a function of the
single attempt's outcome: success passes the body through; the three catch
branches produce the `API Error`, `Network error` and `Request error`
failure objects respectively. -/
def sendChatRequest (outcome : AxiosOutcome) : SendResult :=
  match outcome with
  | AxiosOutcome.success d => SendResult.ok d
  | AxiosOutcome.errorResponse status statusText data =>
      SendResult.fail ("API Error: " ++ toString status ++ " - " ++ statusText) (some data)
  | AxiosOutcome.errorRequest _ =>
      SendResult.fail "Network error: Unable to reach chat API service" none
  | AxiosOutcome.errorSetup msg =>
      SendResult.fail ("Request error: " ++ msg) none

/-- The optional chaining `response.data.choices?.[0]?.message` of line 204. -/
def extractAssistantMessage (d : ResponseData) : Option Message :=
  d.choices.head?.bind Choice.message

/-- The result object of `processMessage`: a `{success: false, error,
details?}` failure or the `{success: true, message, usage, model,
conversationLength}` object of lines 216-222. -/
inductive ProcessResult where
  | failure (error : String) (details : Option String)
  | success (message : String) (usage : String) (model : String) (conversationLength : Nat)
deriving DecidableEq, Repr

/-- The body of `processMessage` after both validation checks (the `try`
block, lines 192-223): build the request (appending the user turn), send it,
and on a well-formed success append the assistant turn. -/
def processMessageBody (cfg : ApiConfig) (maxMessages : Nat) (store : Store)
    (userMessage sessionId : String) (options : Options) (outcome : AxiosOutcome) :
    ProcessResult × Store :=
  let requestAndStore := createChatRequest cfg maxMessages store userMessage sessionId options
  let store1 := requestAndStore.2
  match sendChatRequest outcome with
  | SendResult.fail e d => (ProcessResult.failure e d, store1)
  | SendResult.ok data =>
      match extractAssistantMessage data with
      | none => (ProcessResult.failure "Invalid response format from chat API" none, store1)
      | some assistantMessage =>
          let store2 := addToConversation maxMessages store1 sessionId assistantMessage
          (ProcessResult.success assistantMessage.content data.usage data.model
              (getConversationHistory store2 sessionId).length,
            store2)

/-- `processMessage(userMessage, sessionId, options)` (lines 177-231):
validate the message (non-empty after trim) and the session id (non-empty,
no trimming), then run the body. -/
def processMessage (cfg : ApiConfig) (maxMessages : Nat) (store : Store)
    (userMessage sessionId : String) (options : Options) (outcome : AxiosOutcome) :
    ProcessResult × Store :=
  if userMessage = "" ∨ jsTrim userMessage = "" then
    (ProcessResult.failure "Message cannot be empty" none, store)
  else if sessionId = "" then
    (ProcessResult.failure "Session ID is required" none, store)
  else
    processMessageBody cfg maxMessages store userMessage sessionId options outcome

/-- One externally triggered operation on the service: a `processMessage`
call (with its upstream outcome) or a `clearConversation` call. -/
inductive Op where
  | process (userMessage sessionId : String) (options : Options) (outcome : AxiosOutcome)
  | clear (sessionId : String)
deriving Repr

/-- Run one operation against the store. -/
def runOp (cfg : ApiConfig) (maxMessages : Nat) (store : Store) : Op → Store
  | Op.process um sid opts outcome => (processMessage cfg maxMessages store um sid opts outcome).2
  | Op.clear sid => clearConversation store sid

/-- Run a sequence of operations against the store. -/
def runOps (cfg : ApiConfig) (maxMessages : Nat) (ops : List Op) (store : Store) : Store :=
  ops.foldl (runOp cfg maxMessages) store

/-- A history free of `system`-role messages. -/
def historyHasNoSystem (h : History) : Bool :=
  h.all (fun m => !(m.role == "system"))

/-- An upstream outcome whose extracted assistant message, if any, does not
carry role `system`. -/
def outcomeRoleOk : AxiosOutcome → Bool
  | AxiosOutcome.success d =>
      match extractAssistantMessage d with
      | some m => !(m.role == "system")
      | none => true
  | _ => true

/-- An operation whose upstream outcome, if any, is role-clean. -/
def opRoleOk : Op → Bool
  | Op.process _ _ _ outcome => outcomeRoleOk outcome
  | Op.clear _ => true

/-- Every `process` operation in the sequence has a role-clean outcome. -/
def opsRoleOk (ops : List Op) : Bool :=
  ops.all opRoleOk

/-- A `processMessage` call that fails at the upstream step: a transport,
protocol or setup failure, or a success-status response from which no
assistant message can be extracted (malformed response). -/
def upstreamTurnFailed : AxiosOutcome → Bool
  | AxiosOutcome.success d => (extractAssistantMessage d).isNone
  | _ => true

/-- A failure result that carries a provider-supplied error body — exactly the
shape the `error.response` branch of `sendChatRequest` produces (the
UpstreamProtocolError kind). -/
def isUpstreamProtocolFailure : SendResult → Bool
  | SendResult.fail _ (some _) => true
  | _ => false

/-- The fixed `Network error` failure the `error.request` branch of
`sendChatRequest` produces (the TransportError kind). -/
def isTransportFailure : SendResult → Bool
  | SendResult.fail e none => e == "Network error: Unable to reach chat API service"
  | _ => false

/-- An outcome in which a response with failure status was received. -/
def receivedFailureStatus : AxiosOutcome → Bool
  | AxiosOutcome.errorResponse _ _ _ => true
  | _ => false

/-- An outcome in which the request was dispatched but no response came back. -/
def requestSentNoResponse : AxiosOutcome → Bool
  | AxiosOutcome.errorRequest _ => true
  | _ => false

/-- Modelled from the spec (§7, the claim's classifier): an outcome in which
no response was received at all, whether or not the request was dispatched. -/
def specNoResponseReceived : AxiosOutcome → Bool
  | AxiosOutcome.success _ => false
  | AxiosOutcome.errorResponse _ _ _ => false
  | AxiosOutcome.errorRequest _ => true
  | AxiosOutcome.errorSetup _ => true

/-- Run a sequence of `addToConversation` calls, each tagged with its target
session id, against the store. -/
def runAppends (maxMessages : Nat) (appends : List (String × Message)) (store : Store) : Store :=
  appends.foldl (fun st p => addToConversation maxMessages st p.1 p.2) store

/-- The messages of an append sequence that target the given session, in
their original order. -/
def appendsFor (sessionId : String) (appends : List (String × Message)) : List Message :=
  (appends.filter (fun p => p.1 == sessionId)).map Prod.snd

/-- A store none of whose sessions holds a `system`-role message. -/
def storeNoSystem (store : Store) : Prop :=
  ∀ sid, historyHasNoSystem (getConversationHistory store sid) = true

/-! Helper lemmas about the session store and the service pipeline. -/

lemma jsTrim_empty : jsTrim "" = "" := rfl

lemma addMessageToHistory_drop (H : Nat) (l : List Message) (m : Message) :
    addMessageToHistory H (l.drop (l.length - H)) m
      = (l ++ [m]).drop (l.length + 1 - H) := by
  simp only [addMessageToHistory, List.length_append, List.length_drop,
    List.length_cons, List.length_nil]
  by_cases hH0 : H = 0
  · subst hH0
    have h1 : l.drop (l.length - 0) = [] := List.drop_eq_nil_of_le (by omega)
    have h2 : (l ++ [m]).drop (l.length + 1 - 0) = [] :=
      List.drop_eq_nil_of_le (by simp)
    rw [h1, h2]
    simp
  · by_cases hlt : l.length < H
    · have h1 : l.length - H = 0 := by omega
      rw [h1]
      have h2 : l.length + 1 - H = 0 := by omega
      rw [h2]
      rw [if_neg (by omega)]
      simp
    · have h1 : l.length - (l.length - H) + (0 + 1) - H = 1 := by omega
      rw [if_pos (by omega), h1]
      rw [List.drop_append_eq_append_drop, List.drop_append_eq_append_drop,
        List.drop_drop, List.length_drop]
      have h2 : l.length - H + 1 = l.length + 1 - H := by omega
      have h3 : 1 - (l.length - (l.length - H)) = 0 := by omega
      have h4 : l.length + 1 - H - l.length = 0 := by omega
      rw [h2, h3, h4]

lemma foldl_addMessageToHistory_eq (H : Nat) (msgs : List Message) :
    msgs.foldl (addMessageToHistory H) [] = msgs.drop (msgs.length - H) := by
  induction msgs using List.reverseRecOn with
  | nil => simp
  | append_singleton l m ih =>
      rw [List.foldl_append, ih]
      simp only [List.foldl_cons, List.foldl_nil]
      rw [addMessageToHistory_drop]
      simp

lemma runAppends_apply (H : Nat) (sid : String) (appends : List (String × Message))
    (store : Store) :
    getConversationHistory (runAppends H appends store) sid
      = (appendsFor sid appends).foldl (addMessageToHistory H)
          (getConversationHistory store sid) := by
  induction appends generalizing store with
  | nil => rfl
  | cons p rest ih =>
      simp only [runAppends, List.foldl_cons] at *
      by_cases hp : p.1 = sid
      · have e1 : appendsFor sid (p :: rest) = p.2 :: appendsFor sid rest := by
          simp [appendsFor, List.filter_cons, hp]
        have e2 : getConversationHistory (addToConversation H store p.1 p.2) sid
            = addMessageToHistory H (getConversationHistory store sid) p.2 := by
          simp [getConversationHistory, addToConversation, hp]
        rw [ih, e1, e2]
        simp only [List.foldl_cons]
      · have e1 : appendsFor sid (p :: rest) = appendsFor sid rest := by
          simp [appendsFor, List.filter_cons, hp]
        have e2 : getConversationHistory (addToConversation H store p.1 p.2) sid
            = getConversationHistory store sid := by
          have hps : ¬(sid = p.1) := fun h => hp h.symm
          simp [getConversationHistory, addToConversation, hps]
        rw [ih, e1, e2]

lemma processMessage_valid_eq (cfg : ApiConfig) (H : Nat) (store : Store)
    (um sid : String) (opts : Options) (o : AxiosOutcome)
    (hm : jsTrim um ≠ "") (hs : sid ≠ "") :
    processMessage cfg H store um sid opts o
      = processMessageBody cfg H store um sid opts o := by
  have h1 : ¬(um = "" ∨ jsTrim um = "") := by
    rintro (h | h)
    · exact hm (by rw [h]; exact jsTrim_empty)
    · exact hm h
  simp only [processMessage, if_neg h1, if_neg hs]

lemma createChatRequest_store (cfg : ApiConfig) (H : Nat) (store : Store)
    (um sid : String) (opts : Options) :
    (createChatRequest cfg H store um sid opts).2
      = addToConversation H store sid (Message.mk "user" (jsTrim um)) := rfl

lemma getConversationHistory_addToConversation (H : Nat) (store : Store)
    (sid : String) (m : Message) :
    getConversationHistory (addToConversation H store sid m) sid
      = addMessageToHistory H (getConversationHistory store sid) m := by
  simp [getConversationHistory, addToConversation]

lemma getLast?_addMessageToHistory (H : Nat) (hH : 1 ≤ H) (h : History) (m : Message) :
    (addMessageToHistory H h m).getLast? = some m := by
  simp only [addMessageToHistory, List.length_append, List.length_cons, List.length_nil]
  split
  · rw [List.drop_append_eq_append_drop]
    have e : h.length + (0 + 1) - H - h.length = 0 := by omega
    rw [e]
    simp only [List.drop_zero]
    exact List.getLast?_concat _
  · exact List.getLast?_concat _

lemma processMessageBody_store_of_failed (cfg : ApiConfig) (H : Nat) (store : Store)
    (um sid : String) (opts : Options) (o : AxiosOutcome)
    (hf : upstreamTurnFailed o = true) :
    (processMessageBody cfg H store um sid opts o).2
      = (createChatRequest cfg H store um sid opts).2 := by
  cases o with
  | success d =>
      have hnone : extractAssistantMessage d = none := by
        simpa [upstreamTurnFailed, Option.isNone_iff_eq_none] using hf
      simp [processMessageBody, sendChatRequest, hnone]
  | errorResponse a b c => rfl
  | errorRequest m => rfl
  | errorSetup m => rfl

lemma buildSystemPrompt_role (context : String) (userInfo : UserInfo) :
    (buildSystemPrompt context userInfo).role = "system" := rfl

lemma historyHasNoSystem_add (H : Nat) (h : History) (m : Message)
    (hh : historyHasNoSystem h = true) (hm : (m.role == "system") = false) :
    historyHasNoSystem (addMessageToHistory H h m) = true := by
  simp only [historyHasNoSystem, List.all_eq_true] at *
  intro x hx
  have hx' : x ∈ h ++ [m] := by
    revert hx
    simp only [addMessageToHistory]
    split
    · exact fun hx => List.mem_of_mem_drop hx
    · exact id
  rcases List.mem_append.mp hx' with hxa | hxb
  · exact hh x hxa
  · have hxm : x = m := by simpa using hxb
    subst hxm
    simp [hm]

lemma storeNoSystem_add (H : Nat) (store : Store) (sid : String) (m : Message)
    (hs : storeNoSystem store) (hm : (m.role == "system") = false) :
    storeNoSystem (addToConversation H store sid m) := by
  intro s
  simp only [getConversationHistory, addToConversation]
  split
  · exact historyHasNoSystem_add H _ m (hs sid) hm
  · exact hs s

lemma storeNoSystem_clear (store : Store) (sid : String)
    (hs : storeNoSystem store) : storeNoSystem (clearConversation store sid) := by
  intro s
  simp only [getConversationHistory, clearConversation]
  split
  · rfl
  · exact hs s

lemma storeNoSystem_runOp (cfg : ApiConfig) (H : Nat) (store : Store) (op : Op)
    (hs : storeNoSystem store) (hop : opRoleOk op = true) :
    storeNoSystem (runOp cfg H store op) := by
  cases op with
  | clear sid => exact storeNoSystem_clear store sid hs
  | process um sid opts o =>
      simp only [runOp, processMessage]
      split
      · exact hs
      · split
        · exact hs
        · have huser : ((Message.mk "user" (jsTrim um)).role == "system") = false := rfl
          have hs1 : storeNoSystem (createChatRequest cfg H store um sid opts).2 := by
            rw [createChatRequest_store]
            exact storeNoSystem_add H store sid _ hs huser
          cases o with
          | errorResponse a b c => exact hs1
          | errorRequest m => exact hs1
          | errorSetup m => exact hs1
          | success d =>
              simp only [processMessageBody, sendChatRequest]
              cases hext : extractAssistantMessage d with
              | none => simpa [hext] using hs1
              | some am =>
                  have ham : (am.role == "system") = false := by
                    have h0 := hop
                    simp only [opRoleOk, outcomeRoleOk, hext] at h0
                    simpa using h0
                  exact storeNoSystem_add H _ sid am hs1 ham

lemma storeNoSystem_runOps (cfg : ApiConfig) (H : Nat) (ops : List Op) (store : Store)
    (hs : storeNoSystem store) (hok : opsRoleOk ops = true) :
    storeNoSystem (runOps cfg H ops store) := by
  induction ops generalizing store with
  | nil => exact hs
  | cons op rest ih =>
      have h1 : opRoleOk op = true ∧ opsRoleOk rest = true := by
        simpa [opsRoleOk] using hok
      exact ih (runOp cfg H store op) (storeNoSystem_runOp cfg H store op hs h1.1) h1.2

lemma requestError_ne_networkError (m : String) :
    ("Request error: " ++ m) ≠ "Network error: Unable to reach chat API service" := by
  intro h
  have hd := congrArg String.data h
  rw [String.data_append] at hd
  have h1 := congrArg List.head? hd
  rw [List.head?_append_of_ne_nil _ (by decide)] at h1
  have h2 : ("Request error: " : String).data.head? = some 'R' := by decide
  have h3 : ("Network error: Unable to reach chat API service" : String).data.head?
      = some 'N' := by decide
  rw [h2, h3] at h1
  exact absurd (Option.some.inj h1) (by decide)

/-! Claim theorems. -/

/-- Claim C1: for every session and every sequence of `addToConversation`
appends (to any sessions, interleaved), the session's stored history never
exceeds the configured maximum `H`, and the retained messages are exactly the
most recent `min(n, H)` messages appended to that session, in their original
order (oldest dropped first). -/
theorem historyBoundAndSlidingWindow (H : Nat) (sid : String)
    (appends : List (String × Message)) :
    getConversationHistory (runAppends H appends emptyStore) sid
        = (appendsFor sid appends).drop ((appendsFor sid appends).length - H)
    ∧ (getConversationHistory (runAppends H appends emptyStore) sid).length
        = min (appendsFor sid appends).length H
    ∧ (getConversationHistory (runAppends H appends emptyStore) sid).length ≤ H := by
  have h := runAppends_apply H sid appends emptyStore
  have h0 : getConversationHistory emptyStore sid = [] := rfl
  rw [h0] at h
  rw [h, foldl_addMessageToHistory_eq]
  refine ⟨rfl, ?_, ?_⟩
  · rw [List.length_drop]; omega
  · rw [List.length_drop]; omega

/-- Claim C2: when validation passes but the upstream step fails (transport,
protocol, setup, or malformed-response failure), the store after
`processMessage` is exactly the store after the user-turn append performed in
`createChatRequest`: the trimmed user message is the most recent history entry
and no assistant message was appended for that turn. -/
theorem userTurnPersistedOnUpstreamFailure (cfg : ApiConfig) (H : Nat) (store : Store)
    (um sid : String) (opts : Options) (o : AxiosOutcome)
    (hm : jsTrim um ≠ "") (hs : sid ≠ "") (hf : upstreamTurnFailed o = true) (hH : 1 ≤ H) :
    (processMessage cfg H store um sid opts o).2
        = (createChatRequest cfg H store um sid opts).2
    ∧ (getConversationHistory (processMessage cfg H store um sid opts o).2 sid).getLast?
        = some (Message.mk "user" (jsTrim um)) := by
  rw [processMessage_valid_eq cfg H store um sid opts o hm hs]
  have h1 := processMessageBody_store_of_failed cfg H store um sid opts o hf
  refine ⟨h1, ?_⟩
  rw [h1, createChatRequest_store, getConversationHistory_addToConversation]
  exact getLast?_addMessageToHistory H hH _ _

/-- Witness for C2 at a transport failure on a fresh session with the default
configuration. -/
theorem userTurnPersistedOnUpstreamFailure_witness :
    (jsTrim "hi" ≠ "" ∧ ("s1" : String) ≠ ""
      ∧ upstreamTurnFailed (AxiosOutcome.errorRequest "timeout") = true
      ∧ 1 ≤ defaultMaxHistoryMessages)
    ∧ (processMessage ragApiConfig defaultMaxHistoryMessages emptyStore "hi" "s1"
          defaultOptions (AxiosOutcome.errorRequest "timeout")).2
        = (createChatRequest ragApiConfig defaultMaxHistoryMessages emptyStore "hi" "s1"
            defaultOptions).2
    ∧ (getConversationHistory
          (processMessage ragApiConfig defaultMaxHistoryMessages emptyStore "hi" "s1"
            defaultOptions (AxiosOutcome.errorRequest "timeout")).2 "s1").getLast?
        = some (Message.mk "user" (jsTrim "hi")) := by
  refine ⟨⟨by decide, by decide, by decide, by decide⟩, ?_, ?_⟩
  · exact (userTurnPersistedOnUpstreamFailure ragApiConfig defaultMaxHistoryMessages emptyStore
      "hi" "s1" defaultOptions (AxiosOutcome.errorRequest "timeout")
      (by decide) (by decide) (by decide) (by decide)).1
  · exact (userTurnPersistedOnUpstreamFailure ragApiConfig defaultMaxHistoryMessages emptyStore
      "hi" "s1" defaultOptions (AxiosOutcome.errorRequest "timeout")
      (by decide) (by decide) (by decide) (by decide)).2

/-- Claim C3 (amended): with `includeHistory` enabled (explicitly or by
default), the outgoing `messages` sequence is exactly the system message,
then the stored history verbatim, then the new trimmed user message last; the
new user message occurs once more than the number of identical messages
already in the stored history (so exactly once iff the prior history holds no
identical message). -/
theorem requestMessageOrderAndOccurrences (cfg : ApiConfig) (H : Nat) (store : Store)
    (um sid : String) (ctx : Option String) (ui : Option UserInfo)
    (t mt : Option Nat) (ih : Option Bool)
    (hih : ih = none ∨ ih = some true) :
    (createChatRequest cfg H store um sid (Options.mk ctx ui t mt ih)).1.messages
        = buildSystemPrompt (ctx.getD "travel") (ui.getD emptyUserInfo)
            :: (getConversationHistory store sid ++ [Message.mk "user" (jsTrim um)])
    ∧ (createChatRequest cfg H store um sid (Options.mk ctx ui t mt ih)).1.messages.count
          (Message.mk "user" (jsTrim um))
        = 1 + (getConversationHistory store sid).count (Message.mk "user" (jsTrim um)) := by
  have hinc : (Options.mk ctx ui t mt ih).includeHistory.getD true = true := by
    rcases hih with h | h <;> simp [h]
  have hmsgs : (createChatRequest cfg H store um sid (Options.mk ctx ui t mt ih)).1.messages
      = buildSystemPrompt (ctx.getD "travel") (ui.getD emptyUserInfo)
          :: (getConversationHistory store sid ++ [Message.mk "user" (jsTrim um)]) := by
    simp only [createChatRequest, hinc, if_pos]
    simp
  refine ⟨hmsgs, ?_⟩
  rw [hmsgs]
  have hne : ¬(buildSystemPrompt (ctx.getD "travel") (ui.getD emptyUserInfo)
      = Message.mk "user" (jsTrim um)) := by
    intro e
    have h1 := congrArg Message.role e
    rw [buildSystemPrompt_role] at h1
    have h2 : (Message.mk "user" (jsTrim um)).role = "user" := rfl
    rw [h2] at h1
    exact absurd h1 (by decide)
  rw [List.count_cons]
  simp only [beq_iff_eq, if_neg hne]
  rw [List.count_append]
  simp [List.count_singleton]
  omega

/-- Witness for C3's amended statement on a fresh session with an options bag
that leaves `includeHistory` at its default. -/
theorem requestMessageOrderAndOccurrences_witness :
    ((none : Option Bool) = none ∨ (none : Option Bool) = some true)
    ∧ (createChatRequest ragApiConfig 20 emptyStore "hi" "s1"
          (Options.mk none none none none none)).1.messages
        = buildSystemPrompt ((none : Option String).getD "travel")
            ((none : Option UserInfo).getD emptyUserInfo)
            :: (getConversationHistory emptyStore "s1" ++ [Message.mk "user" (jsTrim "hi")])
    ∧ (createChatRequest ragApiConfig 20 emptyStore "hi" "s1"
          (Options.mk none none none none none)).1.messages.count
          (Message.mk "user" (jsTrim "hi"))
        = 1 + (getConversationHistory emptyStore "s1").count
            (Message.mk "user" (jsTrim "hi")) := by
  refine ⟨Or.inl rfl, ?_, ?_⟩
  · exact (requestMessageOrderAndOccurrences ragApiConfig 20 emptyStore "hi" "s1"
      none none none none none (Or.inl rfl)).1
  · exact (requestMessageOrderAndOccurrences ragApiConfig 20 emptyStore "hi" "s1"
      none none none none none (Or.inl rfl)).2

/-- Counterexample to C3 as stated: sending the same text twice in one session
makes the new user message occur twice in the outgoing sequence, not exactly
once. -/
theorem newUserMessageCanRepeat :
    (createChatRequest placeholderApiConfig 20
        ((createChatRequest placeholderApiConfig 20 emptyStore "hi" "s" defaultOptions).2)
        "hi" "s" defaultOptions).1.messages.count (Message.mk "user" "hi") ≠ 1 := by decide

/-- Claim C4 (amended): with no caller override the built request carries the
fixed destructuring defaults — temperature 0.7 and `max_tokens` 500 —
regardless of which template the context tag selects; caller-supplied values
take precedence over those defaults. -/
theorem samplingParamsIgnoreTemplate (cfg : ApiConfig) (H : Nat) (store : Store)
    (um sid : String) (ctx : Option String) (ui : Option UserInfo)
    (ih : Option Bool) (t mt : Nat) :
    ((createChatRequest cfg H store um sid (Options.mk ctx ui none none ih)).1.temperature = 7
      ∧ (createChatRequest cfg H store um sid (Options.mk ctx ui none none ih)).1.max_tokens
          = 500)
    ∧ ((createChatRequest cfg H store um sid
          (Options.mk ctx ui (some t) (some mt) ih)).1.temperature = t
      ∧ (createChatRequest cfg H store um sid
          (Options.mk ctx ui (some t) (some mt) ih)).1.max_tokens = mt) :=
  ⟨⟨rfl, rfl⟩, ⟨rfl, rfl⟩⟩

/-- Counterexample to C4 as stated: for context `booking` with no overrides
the request does not carry the booking template's temperature/maxTokens. -/
theorem templateSamplingNotApplied :
    ¬ ((createChatRequest placeholderApiConfig 20 emptyStore "hi" "s1"
          (Options.mk (some "booking") none none none none)).1.temperature
          = bookingTemplate.temperature
      ∧ (createChatRequest placeholderApiConfig 20 emptyStore "hi" "s1"
          (Options.mk (some "booking") none none none none)).1.max_tokens
          = bookingTemplate.maxTokens) := by decide

/-- Claim C5 (amended): the timeout bound applied to the HTTP POST is the
hardcoded 30000 ms of `sendChatRequest`, for every configuration. -/
theorem postTimeoutIsHardcoded (cfg : ApiConfig) :
    (sendChatRequestAxiosOptions cfg).timeout = 30000 := rfl

/-- Counterexample to C5 as stated: with the configuration whose `api.timeout`
defaults to 120000 ms, the timeout applied to the POST differs from the
configured request-timeout value. -/
theorem postTimeoutIgnoresConfiguredTimeout :
    (sendChatRequestAxiosOptions ragApiConfig).timeout ≠ ragApiConfig.timeout := by decide

/-- Claim C6: an empty or whitespace-only message, or an empty session id,
makes `processMessage` return a validation failure and leaves the session
store unchanged (the upstream outcome is never consulted). -/
theorem validationFailureIsTerminalAndPure (cfg : ApiConfig) (H : Nat) (store : Store)
    (um sid : String) (opts : Options) (o : AxiosOutcome)
    (h : um = "" ∨ jsTrim um = "" ∨ sid = "") :
    (processMessage cfg H store um sid opts o).2 = store
    ∧ ((processMessage cfg H store um sid opts o).1
          = ProcessResult.failure "Message cannot be empty" none
      ∨ (processMessage cfg H store um sid opts o).1
          = ProcessResult.failure "Session ID is required" none) := by
  by_cases hm : um = "" ∨ jsTrim um = ""
  · have e : processMessage cfg H store um sid opts o
        = (ProcessResult.failure "Message cannot be empty" none, store) := by
      simp only [processMessage, if_pos hm]
    rw [e]
    exact ⟨rfl, Or.inl rfl⟩
  · have hs : sid = "" := by tauto
    have e : processMessage cfg H store um sid opts o
        = (ProcessResult.failure "Session ID is required" none, store) := by
      simp [processMessage, if_neg hm, hs]
    rw [e]
    exact ⟨rfl, Or.inr rfl⟩

/-- Witness for C6: the empty-string message on a fresh session. -/
theorem validationFailureIsTerminalAndPure_witness :
    (("" : String) = "" ∨ jsTrim "" = "" ∨ ("s1" : String) = "")
    ∧ (processMessage ragApiConfig defaultMaxHistoryMessages emptyStore "" "s1"
        defaultOptions (AxiosOutcome.errorRequest "x")).2 = emptyStore
    ∧ ((processMessage ragApiConfig defaultMaxHistoryMessages emptyStore "" "s1"
          defaultOptions (AxiosOutcome.errorRequest "x")).1
        = ProcessResult.failure "Message cannot be empty" none
      ∨ (processMessage ragApiConfig defaultMaxHistoryMessages emptyStore "" "s1"
          defaultOptions (AxiosOutcome.errorRequest "x")).1
        = ProcessResult.failure "Session ID is required" none) := by
  refine ⟨Or.inl rfl, ?_, ?_⟩
  · exact (validationFailureIsTerminalAndPure ragApiConfig defaultMaxHistoryMessages emptyStore
      "" "s1" defaultOptions (AxiosOutcome.errorRequest "x") (Or.inl rfl)).1
  · exact (validationFailureIsTerminalAndPure ragApiConfig defaultMaxHistoryMessages emptyStore
      "" "s1" defaultOptions (AxiosOutcome.errorRequest "x") (Or.inl rfl)).2

/-- Claim C7 (amended): over any sequence of `processMessage` /
`clearConversation` operations whose upstream outcomes never deliver a
`system`-role message in `choices[0].message`, `getConversationHistory` never
returns a `system`-role message; in particular the system message built per
request by `buildSystemPrompt` is never stored. -/
theorem historyNeverContainsSystemRole (cfg : ApiConfig) (H : Nat) (ops : List Op)
    (sid : String) (hok : opsRoleOk ops = true) :
    historyHasNoSystem (getConversationHistory (runOps cfg H ops emptyStore) sid) = true :=
  storeNoSystem_runOps cfg H ops emptyStore (fun _ => rfl) hok sid

/-- Witness for C7's amended statement: one successful turn whose upstream
reply has role `assistant`. -/
theorem historyNeverContainsSystemRole_witness :
    opsRoleOk [Op.process "hi" "s1" defaultOptions
        (AxiosOutcome.success (ResponseData.mk
          [Choice.mk (some (Message.mk "assistant" "hello"))] "u" "m"))] = true
    ∧ historyHasNoSystem (getConversationHistory
        (runOps ragApiConfig defaultMaxHistoryMessages
          [Op.process "hi" "s1" defaultOptions
            (AxiosOutcome.success (ResponseData.mk
              [Choice.mk (some (Message.mk "assistant" "hello"))] "u" "m"))]
          emptyStore) "s1") = true := by
  refine ⟨by decide, ?_⟩
  exact historyNeverContainsSystemRole ragApiConfig defaultMaxHistoryMessages
    [Op.process "hi" "s1" defaultOptions
      (AxiosOutcome.success (ResponseData.mk
        [Choice.mk (some (Message.mk "assistant" "hello"))] "u" "m"))]
    "s1" (by decide)

/-- Counterexample to C7 as stated: a success-status upstream response whose
extracted message carries role `system` is stored unchecked, so the history
then contains a `system`-role message. -/
theorem upstreamSystemRoleReachesHistory :
    historyHasNoSystem (getConversationHistory
        (runOps ragApiConfig defaultMaxHistoryMessages
          [Op.process "hi" "s1" defaultOptions
            (AxiosOutcome.success (ResponseData.mk
              [Choice.mk (some (Message.mk "system" "pwned"))] "u" "m"))]
          emptyStore) "s1") = false := by decide

/-- Claim C8 (amended): the single-attempt gateway returns the
UpstreamProtocolError kind (status and provider error body) exactly for a
received failure-status response, the TransportError kind exactly when the
request was dispatched but no response came back, and passes every
success-status response through; a failure thrown before dispatch yields a
distinct request-error failure instead. -/
theorem gatewayFailureClassification :
    (∀ st stx b, sendChatRequest (AxiosOutcome.errorResponse st stx b)
        = SendResult.fail ("API Error: " ++ toString st ++ " - " ++ stx) (some b))
    ∧ (∀ m, sendChatRequest (AxiosOutcome.errorRequest m)
        = SendResult.fail "Network error: Unable to reach chat API service" none)
    ∧ (∀ d, sendChatRequest (AxiosOutcome.success d) = SendResult.ok d)
    ∧ (∀ o, isUpstreamProtocolFailure (sendChatRequest o) = receivedFailureStatus o)
    ∧ (∀ o, isTransportFailure (sendChatRequest o) = requestSentNoResponse o) := by
  refine ⟨fun _ _ _ => rfl, fun _ => rfl, fun _ => rfl, ?_, ?_⟩
  · intro o
    cases o <;> rfl
  · intro o
    cases o with
    | success d => rfl
    | errorResponse a b c => rfl
    | errorRequest m => rfl
    | errorSetup m =>
        simp only [sendChatRequest, isTransportFailure, requestSentNoResponse]
        rw [beq_eq_false_iff_ne]
        exact requestError_ne_networkError m

/-- Counterexample to C8 as stated: a pre-dispatch (setup) failure receives no
response at all yet is not classified as the TransportError kind. -/
theorem setupFailureIsNotTransportKind :
    specNoResponseReceived (AxiosOutcome.errorSetup "boom") = true
    ∧ isTransportFailure (sendChatRequest (AxiosOutcome.errorSetup "boom")) = false := by
  decide

/-- Claim C9 (amended): a context tag whose lookup on the `systemPrompts`
object is `undefined` — one naming neither a defined template nor an
inherited `Object.prototype` property — composes exactly the system message
the `general` template composes for the same user info; for an inherited tag
the `||` fallback does not fire and the content is built from an `undefined`
base instead. -/
theorem unknownContextFallsBackToGeneral (ctx : String) (ui : UserInfo)
    (h : systemPromptFor ctx = PromptLookup.undef) :
    buildSystemPrompt ctx ui = buildSystemPrompt "general" ui := by
  have hg : systemPromptFor "general" = PromptLookup.template generalTemplate := rfl
  simp only [buildSystemPrompt, buildSystemPromptValue, h, hg]

/-- Witness for C9's amended statement at the context tag `nonexistent` with
a personalized user info. -/
theorem unknownContextFallsBackToGeneral_witness :
    systemPromptFor "nonexistent" = PromptLookup.undef
    ∧ buildSystemPrompt "nonexistent" (UserInfo.mk (some "Ana") none none)
        = buildSystemPrompt "general" (UserInfo.mk (some "Ana") none none) := by
  refine ⟨by decide, ?_⟩
  exact unknownContextFallsBackToGeneral "nonexistent" (UserInfo.mk (some "Ana") none none)
    (by decide)

/-- Counterexample to C9 as stated: `toString` names no defined template, yet
the lookup finds the truthy inherited `Object.prototype.toString`, the
`|| general` fallback never fires, and the composed content (built from the
`undefined` base) differs from the `general` composition. -/
theorem inheritedTagSkipsGeneralFallback :
    isDefinedTemplateTag "toString" = false
    ∧ (buildSystemPrompt "toString" (UserInfo.mk (some "Ana") none none)).content
        ≠ (buildSystemPrompt "general" (UserInfo.mk (some "Ana") none none)).content := by
  decide

/-- Claim C10: a non-empty, whitespace-only session id passes the (untrimmed)
session-id check — the call proceeds into the post-validation body rather than
returning the missing-session failure — and the user's trimmed turn is
appended under that whitespace key. -/
theorem whitespaceSessionIdAccepted (cfg : ApiConfig) (H : Nat) (store : Store)
    (um sid : String) (opts : Options) (o : AxiosOutcome)
    (hm : jsTrim um ≠ "") (hs : sid ≠ "") (_hw : sid.data.all isJsSpace = true)
    (hH : 1 ≤ H) :
    processMessage cfg H store um sid opts o
        = processMessageBody cfg H store um sid opts o
    ∧ (getConversationHistory (createChatRequest cfg H store um sid opts).2 sid).getLast?
        = some (Message.mk "user" (jsTrim um)) := by
  refine ⟨processMessage_valid_eq cfg H store um sid opts o hm hs, ?_⟩
  rw [createChatRequest_store, getConversationHistory_addToConversation]
  exact getLast?_addMessageToHistory H hH _ _

/-- Witness for C10 at the single-space session id. -/
theorem whitespaceSessionIdAccepted_witness :
    (jsTrim "hi" ≠ "" ∧ (" " : String) ≠ ""
      ∧ (" " : String).data.all isJsSpace = true ∧ 1 ≤ defaultMaxHistoryMessages)
    ∧ processMessage ragApiConfig defaultMaxHistoryMessages emptyStore "hi" " "
          defaultOptions (AxiosOutcome.errorRequest "x")
        = processMessageBody ragApiConfig defaultMaxHistoryMessages emptyStore "hi" " "
          defaultOptions (AxiosOutcome.errorRequest "x")
    ∧ (getConversationHistory
          (createChatRequest ragApiConfig defaultMaxHistoryMessages emptyStore "hi" " "
            defaultOptions).2 " ").getLast?
        = some (Message.mk "user" (jsTrim "hi")) := by
  refine ⟨⟨by decide, by decide, by decide, by decide⟩, ?_, ?_⟩
  · exact (whitespaceSessionIdAccepted ragApiConfig defaultMaxHistoryMessages emptyStore
      "hi" " " defaultOptions (AxiosOutcome.errorRequest "x")
      (by decide) (by decide) (by decide) (by decide)).1
  · exact (whitespaceSessionIdAccepted ragApiConfig defaultMaxHistoryMessages emptyStore
      "hi" " " defaultOptions (AxiosOutcome.errorRequest "x")
      (by decide) (by decide) (by decide) (by decide)).2
